import Mathlib

/-!
Shallow embedding of `src/main.py` (a Telegram bot showing planned
power-outage schedules) and proofs about it.

Modelling conventions:
  * JSON values decoded from the upstream API are modelled by `Json`
    (numbers are modelled as integers: the schedule documents carry
    integral minute offsets).
  * Python exceptions are modelled by `Except PyErr`: an operation that
    would raise in Python returns `.error e`.
  * Python truthiness of a value (`if not x`) is modelled by `truthy`.
  * The network is modelled by an oracle `net : String → Option Json`
    mapping a URL to the decoded body of a successful fetch; `none`
    stands for any of the failure modes that `fetch_city_data` collapses
    to `None` (non-200 status, network exception, bad JSON).
-/

/-- A decoded JSON value, as produced by `response.json()`. -/
inductive Json where
  | str : String → Json
  | num : Int → Json
  | arr : List Json → Json
  | obj : List (String × Json) → Json

/-- The Python exceptions the embedded code can raise. -/
inductive PyErr where
  | keyError (key : String)
  | valueError
  | typeError
  | attributeError
  | indexError
deriving DecidableEq

/-- Helper for `pySplit`: split a list of characters at every occurrence
of the separator character. The result is always non-empty. -/
def pySplitList (c : Char) : List Char → List (List Char)
  | [] => [[]]
  | x :: xs =>
      match pySplitList c xs with
      | r :: rs => if x = c then [] :: r :: rs else (x :: r) :: rs
      | [] => [[]]

/-- Python `s.split(sep)` for a one-character separator `sep` (the only
form src/main.py uses: `":"` and `"T"`): fields between separator
occurrences, with empty fields kept, and `[s]` when no separator
occurs. -/
def pySplit (c : Char) (s : String) : List String :=
  (pySplitList c s.data).map String.mk

/-- Python dict lookup on an association list (keys are unique in a dict;
we take the first match). `none` models a missing key. -/
def dictGet : List (String × Json) → String → Option Json
  | [], _ => none
  | (k, v) :: rest, key => if k = key then some v else dictGet rest key

/-- Python truthiness of a decoded JSON value (`bool(x)`). -/
def truthy : Json → Bool
  | .str s => !s.isEmpty
  | .num n => n != 0
  | .arr xs => !xs.isEmpty
  | .obj kvs => !kvs.isEmpty

/-- Python `x[k]` for a string key `k`: dict lookup raising `KeyError`,
`TypeError` on values that do not accept string subscripts. -/
def jsonIndex (j : Json) (k : String) : Except PyErr Json :=
  match j with
  | .obj kvs =>
      match dictGet kvs k with
      | some v => .ok v
      | none => .error (.keyError k)
  | _ => .error .typeError

/-- Python `x.get(k, d)`: `AttributeError` on non-dicts. -/
def jsonGetD (j : Json) (k : String) (d : Json) : Except PyErr Json :=
  match j with
  | .obj kvs => .ok ((dictGet kvs k).getD d)
  | _ => .error .typeError

/-- Whether the first character list starts the second. -/
def startsWithChars : List Char → List Char → Bool
  | [], _ => true
  | _ :: _, [] => false
  | a :: as, b :: bs => a = b && startsWithChars as bs

/-- Whether the first character list occurs contiguously in the second
(Python substring containment). -/
def hasSubChars (p : List Char) : List Char → Bool
  | [] => startsWithChars p []
  | c :: t => startsWithChars p (c :: t) || hasSubChars p t

/-- Python `k in x` for a string `k`: key test on dicts, membership on
lists (only string elements can equal a string), substring test on
strings, `TypeError` on numbers. -/
def jsonContains (j : Json) (k : String) : Except PyErr Bool :=
  match j with
  | .obj kvs => .ok (dictGet kvs k).isSome
  | .arr xs => .ok (xs.any (fun x => match x with | .str s => s = k | _ => false))
  | .str s => .ok (hasSubChars k.data s.data)
  | .num _ => .error .typeError

/-- Python iteration `for x in j`: elements of a list, keys of a dict,
characters of a string, `TypeError` on numbers. -/
def iterElems (j : Json) : Except PyErr (List Json) :=
  match j with
  | .arr xs => .ok xs
  | .obj kvs => .ok (kvs.map (fun p => .str p.1))
  | .str s => .ok (s.data.map (fun c => .str (String.singleton c)))
  | .num _ => .error .typeError

/-- Python `list(x.keys())`: `AttributeError` on non-dicts. -/
def jsonKeys (j : Json) : Except PyErr (List String) :=
  match j with
  | .obj kvs => .ok (kvs.map Prod.fst)
  | _ => .error .attributeError

/-- The value must be an `int` (used where Python does integer
arithmetic on it). -/
def asInt (j : Json) : Except PyErr Int :=
  match j with
  | .num n => .ok n
  | _ => .error .typeError

/-- The value must be a `str` (used where Python calls a string method
on it). -/
def asStr (j : Json) : Except PyErr String :=
  match j with
  | .str s => .ok s
  | _ => .error .attributeError

mutual
/-- Python `f"{x}"` on a decoded JSON value. For containers this
approximates `repr` (schedule documents only ever interpolate strings
and numbers here). -/
def pyStr : Json → String
  | .str s => s
  | .num n => toString n
  | .arr xs => "[" ++ pyStrList xs ++ "]"
  | .obj kvs => "\x7b" ++ pyStrPairs kvs ++ "\x7d"

def pyStrList : List Json → String
  | [] => ""
  | [x] => pyStrInner x
  | x :: xs => pyStrInner x ++ ", " ++ pyStrList xs

def pyStrPairs : List (String × Json) → String
  | [] => ""
  | [(k, v)] => "\x27" ++ k ++ "\x27: " ++ pyStrInner v
  | (k, v) :: xs => "\x27" ++ k ++ "\x27: " ++ pyStrInner v ++ ", " ++ pyStrPairs xs

def pyStrInner : Json → String
  | .str s => "\x27" ++ s ++ "\x27"
  | .num n => toString n
  | .arr xs => "[" ++ pyStrList xs ++ "]"
  | .obj kvs => "\x7b" ++ pyStrPairs kvs ++ "\x7d"
end

/-- Python `f"{n:02}"` for an `int` `n`: pad with one leading zero when
the decimal rendering is a single character. -/
def pyFormat02 (n : Int) : String :=
  if (toString n).length ≥ 2 then toString n else "0" ++ toString n

/-- `format_time` from src/main.py lines 44-48: `h = minutes // 60;
m = minutes % 60; return f"{h:02}:{m:02}"`. Python `//` is floor
division and `%` takes the sign of the divisor, i.e. `Int.fdiv` and
`Int.fmod`. -/
def format_time (minutes : Int) : String :=
  pyFormat02 (Int.fdiv minutes 60) ++ ":" ++ pyFormat02 (Int.fmod minutes 60)

/-- Python `x == s` for a string literal `s`: only strings compare equal
to a string (no exception for other types). -/
def jsonEqStr (j : Json) (s : String) : Bool :=
  match j with
  | .str t => t = s
  | _ => false

/-- The body of the `for slot in slots` loop of `parse_schedule`
(src/main.py lines 65-80): renders one slot line. -/
def renderSlot (slot : Json) : Except PyErr String := do
  let startJ ← jsonIndex slot "start"
  let startN ← asInt startJ
  let start_time := format_time startN
  let endJ ← jsonIndex slot "end"
  let endN ← asInt endJ
  let end_time := format_time endN
  let status_type ← jsonIndex slot "type"
  let icon :=
    if jsonEqStr status_type "Definite" then "🔴"
    else if jsonEqStr status_type "NotPlanned" then "🟢"
    else "⚪️"
  let text :=
    if jsonEqStr status_type "Definite" then "Отключение"
    else if jsonEqStr status_type "NotPlanned" then "Свет есть"
    else pyStr status_type
  pure (icon ++ " " ++ start_time ++ " - " ++ end_time ++ " : " ++ text)

/-- `parse_schedule` from src/main.py lines 51-82. -/
def parse_schedule (data : Json) (day_key : String) : Except PyErr String := do
  let mem ← jsonContains data day_key
  if !mem then
    pure "Нет данных."
  else do
    let day_data ← jsonIndex data day_key
    let slots ← jsonGetD day_data "slots" (.arr [])
    if !truthy slots then
      pure "График пуст (свет есть или нет данных)."
    else do
      let dateJ ← jsonGetD day_data "date" (.str "")
      let dateS ← asStr dateJ
      let date_raw := (pySplit 'T' dateS).headD ""
      let items ← iterElems slots
      let lines ← items.mapM renderSlot
      pure (String.intercalate "\n" (("📅 <b>Дата: " ++ date_raw ++ "</b>") :: lines))

/-- One entry of `CITIES_CONFIG` (src/main.py lines 22-25). -/
structure CityConfig where
  name : String
  region : Int
  dso : Int
deriving DecidableEq

/-- `CITIES_CONFIG` from src/main.py lines 22-25. -/
def CITIES_CONFIG : List (String × CityConfig) :=
  [("kyiv", ⟨"Киев", 25, 902⟩), ("dnipro", ⟨"Днепр", 3, 301⟩)]

/-- `CITIES_CONFIG.get(city_key)` (dict lookup, `None` when absent). -/
def configGet (city_key : String) : Option CityConfig :=
  match CITIES_CONFIG.find? (fun p => p.1 = city_key) with
  | some p => some p.2
  | none => none

/-- `get_api_url` from src/main.py lines 36-41. -/
def get_api_url (city_key : String) : Option String :=
  match configGet city_key with
  | none => none
  | some config =>
      some ("https://app.yasno.ua/api/blackout-service/public/shutdowns/regions/"
        ++ toString config.region ++ "/dsos/" ++ toString config.dso
        ++ "/planned-outages")

/-- Result of one call to `fetch_city_data`: the value it returns, plus
the list of URLs it issued a GET for (to state the no-network claim). -/
structure FetchTrace where
  result : Option Json
  requests : List String

/-- `fetch_city_data` from src/main.py lines 88-103, against a network
oracle `net` (see the header comment): the URL is resolved first and a
missing URL returns `None` before any session is opened; every failure
of the GET itself (non-200 status, exception, bad JSON) is collapsed to
`None` by the oracle. -/
def fetch_city_data (net : String → Option Json) (city_key : String) : FetchTrace :=
  match get_api_url city_key with
  | none => ⟨none, []⟩
  | some url => ⟨net url, [url]⟩

/-- One inline keyboard button (text plus callback data). -/
structure Button where
  text : String
  callback_data : String
deriving DecidableEq

/-- An inline keyboard: rows of buttons. -/
abbrev Keyboard := List (List Button)

/-- `get_cities_keyboard` from src/main.py lines 109-120. -/
def get_cities_keyboard : Keyboard :=
  CITIES_CONFIG.map (fun p => [⟨"🏙 " ++ p.2.name, "city:" ++ p.1⟩])

/-- Lexicographic strict comparison of character lists by code point,
as Python compares strings. -/
def strLtList : List Char → List Char → Bool
  | [], [] => false
  | [], _ :: _ => true
  | _ :: _, [] => false
  | a :: as, b :: bs =>
      if a < b then true
      else if b < a then false
      else strLtList as bs

/-- Python `s < t` on strings. -/
def pyStrLt (s t : String) : Bool := strLtList s.data t.data

/-- Python `s <= t` on strings. -/
def pyStrLe (s t : String) : Bool := !pyStrLt t s

/-- Insert a string into a list sorted by `pyStrLe`. -/
def insertSorted (x : String) : List String → List String
  | [] => [x]
  | y :: ys => if pyStrLe x y then x :: y :: ys else y :: insertSorted x ys

/-- Python `sorted` on a list of strings: the unique permutation that is
sorted in ascending lexicographic order (computed by insertion sort;
Python timsort returns the same list, since a total antisymmetric order
admits exactly one sorted permutation of a given list). -/
def pySorted : List String → List String
  | [] => []
  | x :: xs => insertSorted x (pySorted xs)

/-- The button built for one group inside `get_groups_keyboard`
(src/main.py lines 131-135). -/
def groupButton (city_key group : String) : Button :=
  ⟨"Гр. " ++ group, "group:" ++ city_key ++ ":" ++ group⟩

/-- The `for group in sorted_groups` loop of `get_groups_keyboard`
(src/main.py lines 129-141): accumulate buttons into `row`, flushing
`row` into `keyboard` whenever it reaches 3 buttons, and flush a
non-empty remainder after the loop. -/
def packGroups (city_key : String) (keyboard : Keyboard) (row : List Button) :
    List String → Keyboard
  | [] => if row.isEmpty then keyboard else keyboard ++ [row]
  | g :: gs =>
      let row2 := row ++ [groupButton city_key g]
      if row2.length = 3 then packGroups city_key (keyboard ++ [row2]) [] gs
      else packGroups city_key keyboard row2 gs

/-- `get_groups_keyboard` from src/main.py lines 123-147. -/
def get_groups_keyboard (city_key : String) (groups_list : List String) : Keyboard :=
  let sorted_groups := pySorted groups_list
  packGroups city_key [] [] sorted_groups
    ++ [[⟨"🔙 Назад к городам", "start"⟩]]

/-- `get_refresh_keyboard` from src/main.py lines 150-165. -/
def get_refresh_keyboard (city_key group_id : String) : Keyboard :=
  [[⟨"🔄 Обновить", "group:" ++ city_key ++ ":" ++ group_id⟩],
   [⟨"🔙 Выбрать другую группу", "city:" ++ city_key⟩]]

/-- The message a handler leaves on screen: its text and, when the call
passed `reply_markup`, the keyboard. -/
structure Reply where
  text : String
  keyboard : Option Keyboard
deriving DecidableEq

/-- The error text of `cb_city_selected` (src/main.py line 198). -/
def fetchErrMsg : String := "❌ Не удалось получить данные от Yasno. Попробуйте позже."

/-- The no-groups text of `cb_city_selected` (src/main.py line 209). -/
def noGroupsMsg (city_name : String) : String :=
  "❌ Для города " ++ city_name ++ " данные о группах не найдены."

/-- The success text of `cb_city_selected` (src/main.py line 215). -/
def cityPromptMsg (city_name : String) : String :=
  "📍 Город: <b>" ++ city_name ++ "</b>.\nВыберите вашу группу:"

/-- The error text of `cb_group_selected` (src/main.py line 232). -/
def groupErrMsg : String := "❌ Ошибка получения данных графика."

/-- `CITIES_CONFIG[city_key]` (unguarded dict access, raising
`KeyError` when absent). -/
def configIndex (city_key : String) : Except PyErr CityConfig :=
  match configGet city_key with
  | some c => .ok c
  | none => .error (.keyError city_key)

/-- `cb_city_selected` from src/main.py lines 188-218, with the network
abstracted by `net` and the inbound callback data passed explicitly.
The returned `Reply` is the `edit_text` the handler performs; `.error`
models an exception escaping the handler. Note that `if not data:`
is Python truthiness, so it also catches a fetched document that is
falsy (such as the empty JSON object). -/
def cb_city_selected (net : String → Option Json) (cbdata : String) :
    Except PyErr Reply := do
  let city_key ←
    match (pySplit ':' cbdata).get? 1 with
    | some s => Except.ok s
    | none => Except.error PyErr.indexError
  match (fetch_city_data net city_key).result with
  | none => pure ⟨fetchErrMsg, some get_cities_keyboard⟩
  | some data =>
    if !truthy data then
      pure ⟨fetchErrMsg, some get_cities_keyboard⟩
    else do
      let groups ← jsonKeys data
      if groups.isEmpty then do
        let config ← configIndex city_key
        pure ⟨noGroupsMsg config.name, some get_cities_keyboard⟩
      else do
        let config ← configIndex city_key
        pure ⟨cityPromptMsg config.name, some (get_groups_keyboard city_key groups)⟩

/-- `cb_group_selected` from src/main.py lines 222-257, with the network
abstracted by `net`. `_, city_key, group_id = callback.data.split(":")`
raises `ValueError` unless the split has exactly three fields. The
final message is sent inside `try/except pass` (an edit rejected by
Telegram as unchanged is swallowed); the `Reply` is the message content
the handler attempts to show. -/
def cb_group_selected (net : String → Option Json) (cbdata : String) :
    Except PyErr Reply := do
  match pySplit ':' cbdata with
  | [_, city_key, group_id] =>
      match (fetch_city_data net city_key).result with
      | none => pure ⟨groupErrMsg, none⟩
      | some data =>
        if !truthy data then
          pure ⟨groupErrMsg, none⟩
        else do
          let mem ← jsonContains data group_id
          if !mem then
            pure ⟨groupErrMsg, none⟩
          else do
            let group_data ← jsonIndex data group_id
            let config ← configIndex city_key
            let city_name := config.name
            let updatedJ ← jsonGetD group_data "updatedOn" (.str "Неизвестно")
            let updated_on := pyStr updatedJ
            let today ← parse_schedule group_data "today"
            let tomorrow ← parse_schedule group_data "tomorrow"
            pure ⟨"💡 <b>" ++ city_name ++ ", Группа " ++ group_id ++ "</b>\n"
                   ++ "<i>Обновлено: " ++ updated_on ++ "</i>\n\n"
                   ++ "👇 <b>СЕГОДНЯ</b>:\n" ++ today
                   ++ "\n\n👇 <b>ЗАВТРА</b>:\n" ++ tomorrow,
                  some (get_refresh_keyboard city_key group_id)⟩
  | _ => .error .valueError
/-- Zero-padding of a decimal rendering to width two, as the claim reads
`HH`/`MM` (a single leading zero when the rendering is shorter than two
characters, unpadded beyond two digits). -/
def padTwoSpec (s : String) : String := if s.length < 2 then "0" ++ s else s

lemma pyFormat02_ofNat (k : Nat) : pyFormat02 ((k : Nat) : Int) = padTwoSpec (toString k) := by
  have h : toString ((k : Nat) : Int) = toString k := rfl
  unfold pyFormat02 padTwoSpec
  rw [h]
  by_cases h2 : (toString k).length ≥ 2
  · rw [if_pos h2, if_neg (by omega)]
  · rw [if_neg h2, if_pos (by omega)]

/-- Claim C1: for every non-negative integer m, `format_time m` is the
decimal rendering of m div 60, then a colon, then the rendering of
m mod 60, each zero-padded to width 2, with no wrap-around or clamping
of hours; in particular `format_time 90 = "01:30"` and
`format_time 1440 = "24:00"` (and `format_time 1500 = "25:00"`: hours
may exceed 24). -/
theorem format_time_pads_div_mod :
    (∀ m : Nat, format_time ((m : Nat) : Int)
        = padTwoSpec (toString (m / 60)) ++ ":" ++ padTwoSpec (toString (m % 60)))
    ∧ format_time 90 = "01:30" ∧ format_time 1440 = "24:00"
    ∧ format_time 1500 = "25:00" := by
  refine ⟨fun m => ?_, by decide, by decide, by decide⟩
  unfold format_time
  have hd : Int.fdiv ((m : Nat) : Int) 60 = ((m / 60 : Nat) : Int) := by
    exact_mod_cast (Int.ofNat_fdiv m 60).symm
  have hm : Int.fmod ((m : Nat) : Int) 60 = ((m % 60 : Nat) : Int) := by
    exact_mod_cast (Int.ofNat_fmod m 60).symm
  rw [hd, hm, pyFormat02_ofNat, pyFormat02_ofNat]
/-- Claim C2: for every document (an object) and day key, a missing day
key makes `parse_schedule` return exactly the single no-data line, and a
present day whose slot list is empty makes it return exactly the single
empty-schedule line, with no header and no slot lines. -/
theorem parse_schedule_missing_day_or_empty_slots (kvs : List (String × Json)) (dk : String) :
    (dictGet kvs dk = none → parse_schedule (.obj kvs) dk = .ok "Нет данных.")
    ∧ (∀ dkvs : List (String × Json), dictGet kvs dk = some (.obj dkvs) →
        dictGet dkvs "slots" = some (.arr []) →
        parse_schedule (.obj kvs) dk = .ok "График пуст (свет есть или нет данных).") := by
  constructor
  · intro h
    simp [parse_schedule, jsonContains, h, Bind.bind, Except.bind, Pure.pure, Except.pure]
  · intro dkvs h1 h2
    simp [parse_schedule, jsonContains, jsonIndex, jsonGetD, h1, h2, truthy,
      Bind.bind, Except.bind, Pure.pure, Except.pure]

theorem parse_schedule_missing_day_or_empty_slots_witness :
    parse_schedule (.obj [("today", .obj [("slots", .arr [])])]) "tomorrow" = .ok "Нет данных."
    ∧ parse_schedule (.obj [("today", .obj [("slots", .arr [])])]) "today"
        = .ok "График пуст (свет есть или нет данных)." :=
  ⟨(parse_schedule_missing_day_or_empty_slots [("today", .obj [("slots", .arr [])])] "tomorrow").1
      rfl,
   (parse_schedule_missing_day_or_empty_slots [("today", .obj [("slots", .arr [])])] "today").2
      [("slots", .arr [])] rfl rfl⟩

/-- Claim C3: every slot line is produced by a fixed three-way dispatch
on the status tag: "Definite" gives the outage icon and label,
"NotPlanned" gives the power-available icon and label, and any other tag
gives the neutral icon with the raw tag passed through verbatim as the
label; in every case the formatter succeeds (unrecognized tags never
raise). -/
theorem parse_schedule_slot_status_dispatch (s e : Int) (t dk dateS : String) :
    parse_schedule (.obj [(dk, .obj [("date", .str dateS), ("slots",
        .arr [.obj [("start", .num s), ("end", .num e), ("type", .str t)]])])]) dk
      = .ok ("📅 <b>Дата: " ++ (pySplit 'T' dateS).headD "" ++ "</b>" ++ "\n"
          ++ ((if t = "Definite" then "🔴" else if t = "NotPlanned" then "🟢" else "⚪️")
              ++ " " ++ format_time s ++ " - " ++ format_time e ++ " : "
              ++ (if t = "Definite" then "Отключение"
                  else if t = "NotPlanned" then "Свет есть" else t))) := by
  by_cases h1 : t = "Definite"
  · simp [parse_schedule, jsonContains, jsonIndex, jsonGetD, dictGet, truthy, asStr, iterElems,
      renderSlot, asInt, jsonEqStr, pyStr, h1, Bind.bind, Except.bind, Pure.pure, Except.pure,
      String.intercalate, String.intercalate.go, List.mapM.loop]
  · by_cases h2 : t = "NotPlanned"
    · simp [parse_schedule, jsonContains, jsonIndex, jsonGetD, dictGet, truthy, asStr, iterElems,
        renderSlot, asInt, jsonEqStr, pyStr, h1, h2, Bind.bind, Except.bind, Pure.pure, Except.pure,
        String.intercalate, String.intercalate.go, List.mapM.loop]
    · simp [parse_schedule, jsonContains, jsonIndex, jsonGetD, dictGet, truthy, asStr, iterElems,
        renderSlot, asInt, jsonEqStr, pyStr, h1, h2, Bind.bind, Except.bind, Pure.pure, Except.pure,
        String.intercalate, String.intercalate.go, List.mapM.loop]
theorem strLtList_iff (as : List Char) : ∀ bs, strLtList as bs = true ↔ as < bs := by
  induction as with
  | nil =>
    intro bs
    cases bs with
    | nil =>
      simp only [strLtList, Bool.false_eq_true, false_iff]
      intro h; cases h
    | cons b bs =>
      simp only [strLtList, true_iff]
      exact List.Lex.nil
  | cons a as ih =>
    intro bs
    cases bs with
    | nil =>
      simp only [strLtList, Bool.false_eq_true, false_iff]
      intro h; cases h
    | cons b bs =>
      simp only [strLtList]
      by_cases hab : a < b
      · simp only [if_pos hab, true_iff]
        exact List.Lex.rel hab
      · by_cases hba : b < a
        · simp only [if_neg hab, if_pos hba, Bool.false_eq_true, false_iff]
          intro h
          cases h with
          | cons h3 => exact absurd hba (lt_irrefl a)
          | rel h3 => exact hab h3
        · have heq : a = b := le_antisymm (not_lt.mp hba) (not_lt.mp hab)
          subst heq
          simp only [if_neg hab, if_neg hba]
          rw [ih bs]
          constructor
          · intro h; exact List.Lex.cons h
          · intro h
            cases h with
            | cons h3 => exact h3
            | rel h3 => exact absurd h3 (lt_irrefl a)

theorem pyStrLt_iff (s t : String) : pyStrLt s t = true ↔ s < t := by
  rw [String.lt_iff_toList_lt]
  exact strLtList_iff s.data t.data

theorem pyStrLe_iff (s t : String) : pyStrLe s t = true ↔ s ≤ t := by
  unfold pyStrLe
  rw [← not_lt (α := String), ← pyStrLt_iff t s]
  cases pyStrLt t s <;> simp

theorem insertSorted_perm (x : String) (l : List String) :
    (insertSorted x l).Perm (x :: l) := by
  induction l with
  | nil => exact List.Perm.refl [x]
  | cons y ys ih =>
    unfold insertSorted
    by_cases h : pyStrLe x y
    · rw [if_pos h]
    · rw [if_neg h]
      exact (ih.cons y).trans (List.Perm.swap x y ys)

theorem pySorted_perm (l : List String) : (pySorted l).Perm l := by
  induction l with
  | nil => exact List.Perm.refl []
  | cons x xs ih =>
    unfold pySorted
    exact (insertSorted_perm x (pySorted xs)).trans (ih.cons x)

theorem sorted_insertSorted (x : String) (l : List String) (h : l.Sorted (· ≤ ·)) :
    (insertSorted x l).Sorted (· ≤ ·) := by
  induction l with
  | nil => simp [insertSorted]
  | cons y ys ih =>
    rw [List.sorted_cons] at h
    unfold insertSorted
    by_cases hxy : pyStrLe x y
    · rw [if_pos hxy]
      rw [List.sorted_cons]
      have hxyle : x ≤ y := (pyStrLe_iff x y).mp hxy
      refine ⟨?_, ?_⟩
      · intro b hb
        rcases List.mem_cons.mp hb with hb | hb
        · exact hb ▸ hxyle
        · exact le_trans hxyle (h.1 b hb)
      · rw [List.sorted_cons]; exact h
    · rw [if_neg hxy]
      rw [List.sorted_cons]
      refine ⟨?_, ih h.2⟩
      intro b hb
      have hyx : y ≤ x := by
        have h1 : pyStrLe x y = false := by
          cases hc : pyStrLe x y
          · rfl
          · exact absurd hc hxy
        have h2 : pyStrLt y x = true := by
          unfold pyStrLe at h1
          cases hc : pyStrLt y x
          · rw [hc] at h1; simp at h1
          · rfl
        exact le_of_lt ((pyStrLt_iff y x).mp h2)
      rcases List.mem_cons.mp ((insertSorted_perm x ys).mem_iff.mp hb) with hb | hb
      · exact hb ▸ hyx
      · exact h.1 b hb

theorem pySorted_sorted (l : List String) : (pySorted l).Sorted (· ≤ ·) := by
  induction l with
  | nil => simp [pySorted]
  | cons x xs ih => exact sorted_insertSorted x (pySorted xs) ih

/-- Rows of three: the layout that `packGroups` produces, stated as a
plain chunking of a list (the claim reads the keyboard as the sorted
buttons laid out 3 per row, the last row holding the remainder). -/
def chunks3 {α : Type} : List α → List (List α)
  | [] => []
  | [a] => [[a]]
  | [a, b] => [[a, b]]
  | a :: b :: c :: rest => [a, b, c] :: chunks3 rest

theorem chunks3_join {α : Type} : ∀ l : List α, (chunks3 l).flatten = l
  | [] => rfl
  | [_] => rfl
  | [_, _] => rfl
  | a :: b :: c :: rest => by
      show ([a, b, c] :: chunks3 rest).flatten = a :: b :: c :: rest
      rw [List.flatten_cons, chunks3_join rest]
      rfl

theorem chunks3_bounds {α : Type} : ∀ l : List α, ∀ r ∈ chunks3 l, 0 < r.length ∧ r.length ≤ 3
  | [] => by simp [chunks3]
  | [_] => by simp [chunks3]
  | [_, _] => by simp [chunks3]
  | a :: b :: c :: rest => by
      intro r hr
      rw [show chunks3 (a :: b :: c :: rest) = [a, b, c] :: chunks3 rest from rfl] at hr
      rcases List.mem_cons.mp hr with hr | hr
      · subst hr; simp
      · exact chunks3_bounds rest r hr

theorem chunks3_dropLast_three {α : Type} :
    ∀ l : List α, ∀ r ∈ (chunks3 l).dropLast, r.length = 3
  | [] => by simp [chunks3]
  | [_] => by simp [chunks3]
  | [_, _] => by simp [chunks3]
  | a :: b :: c :: rest => by
      intro r hr
      rw [show chunks3 (a :: b :: c :: rest) = [a, b, c] :: chunks3 rest from rfl] at hr
      cases hrest : chunks3 rest with
      | nil => rw [hrest] at hr; simp at hr
      | cons q qs =>
          rw [hrest, List.dropLast_cons₂] at hr
          rcases List.mem_cons.mp hr with hr | hr
          · subst hr; rfl
          · exact chunks3_dropLast_three rest r (by rw [hrest]; exact hr)

theorem packGroups_eq (c : String) : ∀ (gs : List String) (kb : Keyboard) (row : List Button),
    row.length < 3 →
    packGroups c kb row gs = kb ++ chunks3 (row ++ gs.map (groupButton c)) := by
  intro gs
  induction gs with
  | nil =>
    intro kb row hrow
    match row, hrow with
    | [], _ => simp [packGroups, chunks3]
    | [a], _ => simp [packGroups, chunks3]
    | [a, b], _ => simp [packGroups, chunks3]
  | cons g gs ih =>
    intro kb row hrow
    show (if (row ++ [groupButton c g]).length = 3
        then packGroups c (kb ++ [row ++ [groupButton c g]]) [] gs
        else packGroups c kb (row ++ [groupButton c g]) gs)
      = kb ++ chunks3 (row ++ (g :: gs).map (groupButton c))
    by_cases h3 : (row ++ [groupButton c g]).length = 3
    · rw [if_pos h3, ih (kb ++ [row ++ [groupButton c g]]) [] (by simp)]
      rcases List.length_eq_three.mp h3 with ⟨x, y, z, hxyz⟩
      rw [List.map_cons,
        show row ++ groupButton c g :: gs.map (groupButton c)
          = (row ++ [groupButton c g]) ++ gs.map (groupButton c) by simp,
        hxyz]
      show kb ++ [[x, y, z]] ++ chunks3 ([] ++ gs.map (groupButton c))
        = kb ++ chunks3 (x :: y :: z :: gs.map (groupButton c))
      rw [show chunks3 (x :: y :: z :: gs.map (groupButton c))
          = [x, y, z] :: chunks3 (gs.map (groupButton c)) from rfl]
      simp
    · have hlen : (row ++ [groupButton c g]).length < 3 := by
        rw [List.length_append] at h3 ⊢
        simp at h3 ⊢
        omega
      rw [if_neg h3, ih kb (row ++ [groupButton c g]) hlen]
      congr 1
      rw [List.map_cons]
      simp

/-- The final back-to-cities button of the group keyboard
(src/main.py lines 144-146). -/
def backButton : Button := ⟨"🔙 Назад к городам", "start"⟩

/-- Claim C4: for every city and group list, the group keyboard is the
groups sorted lexicographically ascending (a sorted permutation of the
input), one button per group, laid out 3 per row with the last row
holding the remainder, followed by a single back-to-cities button; in
particular for groups "1.1" and "1.2" the button for "1.1" precedes the
one for "1.2". -/
theorem get_groups_keyboard_sorted_3_per_row (city : String) (groups : List String) :
    List.Sorted (· ≤ ·) (pySorted groups)
    ∧ (pySorted groups).Perm groups
    ∧ get_groups_keyboard city groups
        = chunks3 ((pySorted groups).map (groupButton city)) ++ [[backButton]]
    ∧ (chunks3 ((pySorted groups).map (groupButton city))).flatten
        = (pySorted groups).map (groupButton city)
    ∧ ((chunks3 ((pySorted groups).map (groupButton city))).dropLast.all
        (fun r => r.length == 3)) = true
    ∧ ((chunks3 ((pySorted groups).map (groupButton city))).all
        (fun r => decide (0 < r.length) && decide (r.length ≤ 3))) = true
    ∧ get_groups_keyboard "kyiv" ["1.1", "1.2"]
        = [[groupButton "kyiv" "1.1", groupButton "kyiv" "1.2"], [backButton]] := by
  refine ⟨pySorted_sorted groups, pySorted_perm groups, ?_, chunks3_join _, ?_, ?_, by decide⟩
  · show packGroups city [] [] (pySorted groups) ++ [[⟨"🔙 Назад к городам", "start"⟩]]
      = chunks3 ((pySorted groups).map (groupButton city)) ++ [[backButton]]
    rw [packGroups_eq city (pySorted groups) [] [] (by simp)]
    rfl
  · rw [List.all_eq_true]
    intro r hr
    rw [beq_iff_eq]
    exact chunks3_dropLast_three _ r hr
  · rw [List.all_eq_true]
    intro r hr
    have h := chunks3_bounds _ r hr
    simp [h.1, h.2]
/-- Claim C7: for every city key not present in the registry, the
fetcher resolves no URL and returns the failure indicator immediately,
issuing no network request at all (the request trace is empty: the
session is only opened after the URL check succeeds). -/
theorem fetch_unknown_city_no_network (city : String) (h : configGet city = none) :
    get_api_url city = none
    ∧ ∀ net : String → Option Json, fetch_city_data net city = ⟨none, []⟩ := by
  constructor
  · unfold get_api_url; rw [h]
  · intro net; unfold fetch_city_data get_api_url; rw [h]

/-- A network oracle on which every request fails. -/
def netEmpty : String → Option Json := fun _ => none

theorem fetch_unknown_city_no_network_witness :
    get_api_url "lviv" = none ∧ fetch_city_data netEmpty "lviv" = ⟨none, []⟩ :=
  ⟨(fetch_unknown_city_no_network "lviv" rfl).1,
   (fetch_unknown_city_no_network "lviv" rfl).2 netEmpty⟩

lemma fetch_some_config (net : String → Option Json) (city : String) (d : Json)
    (h : (fetch_city_data net city).result = some d) :
    ∃ cfg, configGet city = some cfg := by
  unfold fetch_city_data get_api_url at h
  cases hc : configGet city with
  | some cfg => exact ⟨cfg, rfl⟩
  | none => rw [hc] at h; simp at h

/-- Whether an interaction handler run ended in a `KeyError` escaping
the handler. -/
def isKeyErrorReply : Except PyErr Reply → Bool
  | .error (.keyError _) => true
  | _ => false

/-- Claim C10: whenever the fetcher returns a document, the requested
city key is a key of the static city table (the fetcher fails first for
unknown keys), so the unguarded `CITIES_CONFIG[city_key]` lookups in
the success and zero-groups branches of the city handler can never
raise: no run of `cb_city_selected` ends in a `KeyError`. -/
theorem fetch_success_city_known (net : String → Option Json) (city : String) :
    (∀ d : Json, (fetch_city_data net city).result = some d → (configGet city).isSome = true)
    ∧ ∀ cb : String, isKeyErrorReply (cb_city_selected net cb) = false := by
  constructor
  · intro d h
    rcases fetch_some_config net city d h with ⟨cfg, hc⟩
    rw [hc]; rfl
  · intro cb
    unfold cb_city_selected
    cases hp : (pySplit ':' cb).get? 1 with
    | none => simp [Bind.bind, Except.bind, isKeyErrorReply]
    | some ck =>
      simp only [Bind.bind, Except.bind]
      cases hf : (fetch_city_data net ck).result with
      | none => simp [isKeyErrorReply, Pure.pure, Except.pure]
      | some d =>
        by_cases ht : truthy d
        · simp only [ht, Bool.not_true, Bool.false_eq_true, if_false]
          cases d with
          | obj kvs =>
            rcases fetch_some_config net ck (Json.obj kvs) hf with ⟨cfg, hc⟩
            by_cases hg : (kvs.map Prod.fst).isEmpty
            · simp [jsonKeys, configIndex, hc, hg, Pure.pure, Except.pure, isKeyErrorReply,
                Bind.bind, Except.bind]
            · simp [jsonKeys, configIndex, hc, hg, Pure.pure, Except.pure, isKeyErrorReply,
                Bind.bind, Except.bind]
          | str s => simp [jsonKeys, isKeyErrorReply]
          | num n => simp [jsonKeys, isKeyErrorReply]
          | arr xs => simp [jsonKeys, isKeyErrorReply]
        · simp [ht, isKeyErrorReply, Pure.pure, Except.pure]

/-- A network oracle returning a document with the single group 1.1. -/
def netOneGroup : String → Option Json := fun _ => some (.obj [("1.1", .obj [])])

theorem fetch_success_city_known_witness :
    (configGet "kyiv").isSome = true
    ∧ isKeyErrorReply (cb_city_selected netOneGroup "city:kyiv") = false :=
  ⟨(fetch_success_city_known netOneGroup "kyiv").1 (.obj [("1.1", .obj [])]) rfl,
   (fetch_success_city_known netOneGroup "kyiv").2 "city:kyiv"⟩

/-- A network oracle returning the empty JSON object for every URL. -/
def netEmptyDoc : String → Option Json := fun _ => some (.obj [])

/-- Claim C5 (behaviour the code actually has): when the fetch succeeds
with an empty document, `if not data:` sees a falsy value, so the city
handler renders the generic fetch-failure message, not the dedicated
no-groups message (the `if not groups:` branch is unreachable, since a
document with zero keys is already caught as falsy). The two messages
are distinct, so the divergence is observable. -/
theorem city_selected_empty_doc_error_branch :
    cb_city_selected netEmptyDoc "city:kyiv" = .ok ⟨fetchErrMsg, some get_cities_keyboard⟩
    ∧ fetchErrMsg ≠ noGroupsMsg "Киев" ∧ fetchErrMsg ≠ noGroupsMsg "Днепр" :=
  ⟨rfl, by decide, by decide⟩

/-- Claim C6: whenever the fetch fails, the city handler replies with
the generic fetch-error message plus the cities (Root) keyboard and the
group handler replies with the generic schedule-error message (and no
keyboard), both returning normally; and when the fetch succeeds but the
requested group id is absent from the returned document, the group
handler likewise replies with the generic error message. No exception
escapes on these paths and none of them silently succeeds. -/
theorem handlers_fetch_failure_generic_error (net : String → Option Json)
    (cb p c g : String) :
    ((pySplit ':' cb).get? 1 = some c →
      (fetch_city_data net c).result = none →
      cb_city_selected net cb = .ok ⟨fetchErrMsg, some get_cities_keyboard⟩)
    ∧ (pySplit ':' cb = [p, c, g] →
      (fetch_city_data net c).result = none →
      cb_group_selected net cb = .ok ⟨groupErrMsg, none⟩)
    ∧ (∀ kvs : List (String × Json), pySplit ':' cb = [p, c, g] →
      (fetch_city_data net c).result = some (.obj kvs) →
      dictGet kvs g = none →
      cb_group_selected net cb = .ok ⟨groupErrMsg, none⟩) := by
  refine ⟨?_, ?_, ?_⟩
  · intro hp hf
    simp only [List.get?_eq_getElem?] at hp
    simp [cb_city_selected, hp, hf, Bind.bind, Except.bind, Pure.pure, Except.pure]
  · intro hp hf
    simp [cb_group_selected, hp, hf, Bind.bind, Except.bind, Pure.pure, Except.pure]
  · intro kvs hp hf hg
    by_cases ht : truthy (.obj kvs)
    · simp [cb_group_selected, hp, hf, ht, jsonContains, hg, Bind.bind, Except.bind,
        Pure.pure, Except.pure]
    · simp [cb_group_selected, hp, hf, ht, Bind.bind, Except.bind, Pure.pure, Except.pure]

/-- A network oracle returning a document that only has group 2.1. -/
def netNoGroup : String → Option Json := fun _ => some (.obj [("2.1", .obj [])])

theorem handlers_fetch_failure_generic_error_witness :
    cb_city_selected netEmpty "city:kyiv" = .ok ⟨fetchErrMsg, some get_cities_keyboard⟩
    ∧ cb_group_selected netEmpty "group:kyiv:1.1" = .ok ⟨groupErrMsg, none⟩
    ∧ cb_group_selected netNoGroup "group:kyiv:1.1" = .ok ⟨groupErrMsg, none⟩ :=
  ⟨(handlers_fetch_failure_generic_error netEmpty "city:kyiv" "city" "kyiv" "").1 rfl rfl,
   (handlers_fetch_failure_generic_error netEmpty "group:kyiv:1.1" "group" "kyiv" "1.1").2.1
     rfl rfl,
   (handlers_fetch_failure_generic_error netNoGroup "group:kyiv:1.1" "group" "kyiv" "1.1").2.2
     [("2.1", .obj [])] rfl rfl rfl⟩

/-- Claim C8 (counterexample): a `group:`-prefixed identifier with four
colon-delimited fields makes the group handler raise `ValueError` from
the three-way tuple unpacking, rather than rejecting or ignoring the
malformed input and returning. -/
theorem group_selected_malformed_raises :
    cb_group_selected netEmpty "group:kyiv:1.1:extra" = .error .valueError := rfl

/-- Claim C8 as amended: a malformed `group:` identifier whose field
count is not exactly three always makes the group handler raise
`ValueError` (contained only by the framework dispatcher outside the
handler), while the city handler tolerates a degenerate `city:`
identifier by falling into the fetch-failure reply without raising. -/
theorem group_selected_malformed_value_error (net : String → Option Json) (cb : String) :
    ((pySplit ':' cb).length ≠ 3 → cb_group_selected net cb = .error .valueError)
    ∧ cb_city_selected netEmpty "city:" = .ok ⟨fetchErrMsg, some get_cities_keyboard⟩ := by
  constructor
  · intro h
    unfold cb_group_selected
    cases hp : pySplit ':' cb with
    | nil => rfl
    | cons a t =>
      cases t with
      | nil => rfl
      | cons b t2 =>
        cases t2 with
        | nil => rfl
        | cons c t3 =>
          cases t3 with
          | nil => rw [hp] at h; exact absurd rfl h
          | cons d t4 => rfl
  · rfl

theorem group_selected_malformed_value_error_witness :
    cb_group_selected netEmpty "group:kyiv:1.1:extra" = .error .valueError
    ∧ cb_city_selected netEmpty "city:" = .ok ⟨fetchErrMsg, some get_cities_keyboard⟩ :=
  ⟨(group_selected_malformed_value_error netEmpty "group:kyiv:1.1:extra").1 (by decide),
   (group_selected_malformed_value_error netEmpty "x").2⟩

/-- A network oracle returning a document whose only slot object has no
fields at all (in particular no "start"). -/
def netMissingStart : String → Option Json :=
  fun _ => some (.obj [("1.1", .obj [("updatedOn", .str "2024"),
    ("today", .obj [("date", .str "2024-01-01T00:00"), ("slots", .arr [.obj []])])])])

/-- Claim C9 (counterexample): a document that decodes fine but whose
slot object lacks the "start" field makes the group handler end in
`KeyError` — the exception escapes the handler and no generic message
is rendered, unlike the other error classes. -/
theorem group_selected_missing_slot_field_raises :
    cb_group_selected netMissingStart "group:kyiv:1.1" = .error (.keyError "start") := rfl

/-- Claim C9 as amended: when a day's first slot object lacks the
"start" field, `parse_schedule` raises `KeyError "start"` instead of
producing display lines, so inside the group handler this failure class
is not collapsed to a generic message (only bad JSON is, inside the
fetcher). -/
theorem parse_schedule_missing_field_key_error (kvs dkvs skvs : List (String × Json))
    (dk ds : String) (rest : List Json)
    (h1 : dictGet kvs dk = some (.obj dkvs))
    (h2 : dictGet dkvs "slots" = some (.arr (.obj skvs :: rest)))
    (h3 : dictGet skvs "start" = none)
    (h4 : dictGet dkvs "date" = some (.str ds)) :
    parse_schedule (.obj kvs) dk = .error (.keyError "start") := by
  simp [parse_schedule, jsonContains, jsonIndex, jsonGetD, h1, h2, h3, h4, truthy, asStr,
    iterElems, renderSlot, List.mapM.loop, Bind.bind, Except.bind, Pure.pure, Except.pure]

theorem parse_schedule_missing_field_key_error_witness :
    parse_schedule (.obj [("today", .obj [("date", .str "2024-01-01T00:00"),
        ("slots", .arr [.obj []])])]) "today" = .error (.keyError "start") :=
  parse_schedule_missing_field_key_error
    [("today", .obj [("date", .str "2024-01-01T00:00"), ("slots", .arr [.obj []])])]
    [("date", .str "2024-01-01T00:00"), ("slots", .arr [.obj []])]
    [] "today" "2024-01-01T00:00" [] rfl rfl rfl rfl
